import Mathlib

/-!
Verification of the blockchain-event assertion engine of
`scenario_player` (file `scenario_player/tasks/blockchain.py`).

The Python code is shallowly embedded: decoded events, argument
dictionaries and configuration values become inductive data; the
tasks' `_run` methods become total functions returning
`Except Err …`; the two distinct Python exception classes
(`ScenarioError` for configuration problems, `ScenarioAssertionError`
for assertion mismatches) become the two constructors of `Err`.
External collaborators (the chain, the node registry, keccak, ABI
decoding of a single event) are parameters of the functions that use
them, exactly as the spec models them as read-only collaborator
interfaces.
-/

namespace ScenarioPlayer

/-- A decoded Python value as it occurs in event argument dictionaries
and in scenario configuration: integers, strings (addresses are
checksummed hex strings in the Python code) and byte strings. -/
inductive Value where
  | vInt : Int → Value
  | vStr : String → Value
  | vBytes : List Nat → Value
deriving DecidableEq, Repr

/-- A Python `dict` as an insertion-ordered association list; its
`.items()` view is the list of pairs. -/
abbrev Dict := List (String × Value)

/-- Lookup in a dict (`d[k]`); `none` models a `KeyError`. -/
def lookupArg (d : Dict) (k : String) : Option Value :=
  (d.find? (fun kv => kv.1 == k)).map (·.2)

/-- A decoded event as returned by `get_event_data`: event name, the
`args` dictionary, and the originating transaction hash. -/
structure DecodedEvent where
  event : String
  args : Dict
  transactionHash : Nat
deriving DecidableEq, Repr

/-- The two exception classes raised by the assertion tasks:
`ScenarioError` (configuration errors, e.g. missing keys, unknown
contract) and `ScenarioAssertionError` (assertion mismatches). -/
inductive Err where
  | scenarioError : String → Err
  | assertionMismatch : String → Err
deriving DecidableEq, Repr

/-- Holds (`true`) exactly on results that raise `ScenarioAssertionError`. -/
def isAssertionMismatch {α : Type} : Except Err α → Bool
  | .error (.assertionMismatch _) => true
  | _ => false

/-- Tests whether `pat` is a prefix of `s` (character lists). -/
def hasPrefixChars : List Char → List Char → Bool
  | _, [] => true
  | [], _ :: _ => false
  | c :: s, p :: ps => c == p && hasPrefixChars s ps

/-- Tests whether `pat` occurs as a contiguous substring of `s` (character lists). -/
def hasSubstrChars : List Char → List Char → Bool
  | [], pat => pat.isEmpty
  | c :: s, pat => hasPrefixChars (c :: s) pat || hasSubstrChars s pat

/-- Python `pat in s` substring test (used by the code with the
constant pattern "participant"). -/
def strContains (s pat : String) : Bool :=
  hasSubstrChars s.data pat.data

/-- Python `str.isnumeric` restricted to ASCII: non-empty and all
characters are decimal digits (the only numeric strings occurring in
scenario definitions). -/
def isNumericStr (s : String) : Bool :=
  !s.data.isEmpty && s.data.all (fun c => c.isDigit)

/-- Python `int(s)` on a numeric (all-digits) string. -/
def strToNat (s : String) : Nat :=
  s.data.foldl (fun a c => a * 10 + (c.toNat - 48)) 0

/-- Model of `QueryBlockchainMixin._get_node_address`: an `int`, or a numeric
string, is a scenario node index and is replaced by that node's
on-chain address (`self._runner.get_node_address`, here the
collaborator `nodeAddr`); every other value is returned unchanged. -/
def getNodeAddress (nodeAddr : Int → Value) : Value → Value
  | .vInt n => nodeAddr n
  | .vStr s => if isNumericStr s then nodeAddr (strToNat s) else .vStr s
  | .vBytes b => .vBytes b

/-- The in-place rewrite loop at the top of
`QueryBlockchainMixin._filter_events`: every entry whose key contains
the substring "participant" has its value passed through
`_get_node_address`; all other entries are untouched.  Iteration order
and keys are preserved (Python dicts are insertion ordered). -/
def resolveArgs (nodeAddr : Int → Value) (args : Dict) : Dict :=
  args.map (fun kv =>
    if strContains kv.1 "participant" then (kv.1, getNodeAddress nodeAddr kv.2) else kv)

/-- Non-empty intersection of two `.items()` views
(`event_args_items & e["args"].items()` is truthy). -/
def itemsIntersect (xs ys : Dict) : Bool :=
  xs.any (fun p => decide (p ∈ ys))

/-- Model of `QueryBlockchainMixin._filter_events`.  Keeps the events whose
name equals `event_name`; when the constraint dict `event_args` is
non-empty it is first rewritten in place (participant indices →
addresses) and an event then also has to have a truthy `args` dict
sharing at least one `(name, value)` pair with the rewritten
constraints.  Returns the surviving events together with the final
contents of `self.event_args` (mutated by the rewrite). -/
def filter_events (nodeAddr : Int → Value) (event_name : String) (event_args : Dict)
    (events : List DecodedEvent) : List DecodedEvent × Dict :=
  let byName := events.filter (fun e => e.event == event_name)
  if event_args.isEmpty then (byName, event_args)
  else
    let args2 := resolveArgs nodeAddr event_args
    (byName.filter (fun e => !e.args.isEmpty && itemsIntersect args2 e.args), args2)

/-- Python `", ".join(keys)`. -/
def joinComma : List String → String
  | [] => ""
  | [k] => k
  | k :: rest => k ++ ", " ++ joinComma rest

/-- Model of `_verify_config`: raises `ScenarioError` when any required key is
missing from the configuration dict (`configKeys` are the keys present
in `config`). -/
def verify_config (configKeys : List String) (required : List String) : Except Err Unit :=
  if required.any (fun k => !(configKeys.contains k)) then
    .error (.scenarioError ("Not all required keys provided. Required: " ++
      joinComma required))
  else .ok ()

/-- The contract-address resolution of
`QueryBlockchainMixin._get_blockchain_events`: the token network's
address comes from the runner, any other contract is looked up in the
deployment descriptor (`contract_data["contracts"]`), and a missing
entry (Python `KeyError`) is turned into
`ScenarioError("Unknown contract name: …")`. -/
def resolveContractAddress (tokenNetworkAddress : Value)
    (deployedContracts : List (String × Value)) (contract_name : String) : Except Err Value :=
  if contract_name == "TokenNetwork" then .ok tokenNetworkAddress
  else
    match (deployedContracts.find? (fun kv => kv.1 == contract_name)).map (·.2) with
    | some addr => .ok addr
    | none => .error (.scenarioError ("Unknown contract name: " ++ contract_name))

/-! ### Exact-count assertion (`AssertBlockchainEventsTask`) -/

/-- The `ScenarioAssertionError` message of
`AssertBlockchainEventsTask._run`. -/
def assertEventsMsg (num_events n : Nat) : String :=
  "Expected number of events (" ++ toString num_events ++
    ") did not match the number of events found (" ++ toString n ++ ")"

/-- Model of `AssertBlockchainEventsTask._run` after the chain query: filter
the decoded events, then fail with `ScenarioAssertionError` unless
exactly `num_events` events survive; on success the payload is the
list of matched events.  `cfgEventArgs` is the task's (copied)
`event_args` dict. -/
def runAssertEvents (nodeAddr : Int → Value) (cfgEventArgs : Dict) (event_name : String)
    (num_events : Nat) (chainEvents : List DecodedEvent) : Except Err (List DecodedEvent) :=
  let events := (filter_events nodeAddr event_name cfgEventArgs chainEvents).1
  if num_events ≠ events.length then
    .error (.assertionMismatch (assertEventsMsg num_events events.length))
  else .ok events

/-! ### Bidirectional settlement assertion (`AssertChannelSettledEventTask`) -/

/-- The constraint dict built by
`AssertChannelSettledEventTask._filter_for_channel_settled`:
participants always, the amount entries only when the corresponding
amount was configured (insertion order as in the Python code). -/
def settledEventArgs (p1 : Value) (p1amt : Option Int) (p2 : Value) (p2amt : Option Int) :
    Dict :=
  [("participant1", p1), ("participant2", p2)] ++
    (match p1amt with | some a => [("participant1_amount", Value.vInt a)] | none => []) ++
    (match p2amt with | some a => [("participant2_amount", Value.vInt a)] | none => [])

/-- Model of `AssertChannelSettledEventTask._filter_for_channel_settled`: keep
the events with a truthy `args` dict sharing at least one pair with
the constraint dict. -/
def filter_for_channel_settled (events : List DecodedEvent) (p1 : Value) (p1amt : Option Int)
    (p2 : Value) (p2amt : Option Int) : List DecodedEvent :=
  let items := settledEventArgs p1 p1amt p2 p2amt
  events.filter (fun e => !e.args.isEmpty && itemsIntersect items e.args)

/-- The event-selection part of `AssertChannelSettledEventTask._run`:
filter by name/`channel_identifier`, then by
`(participant1 = initiator, participant2 = partner)`, and — if that
found nothing — retry with the participants swapped.  Note that the
Python code passes the (empty) result of the first
`_filter_for_channel_settled` call into the retry, not the original
event list; this function reproduces exactly that. -/
def settledCandidates (nodeAddr : Int → Value) (channel_identifier : Int)
    (initiator partner : Value) (initiator_amount partner_amount : Option Int)
    (chainEvents : List DecodedEvent) : List DecodedEvent :=
  let event_args : Dict := [("channel_identifier", Value.vInt channel_identifier)]
  let events := (filter_events nodeAddr "ChannelSettled" event_args chainEvents).1
  let events := filter_for_channel_settled events initiator initiator_amount
    partner partner_amount
  if events.length == 0 then
    filter_for_channel_settled events partner partner_amount initiator initiator_amount
  else events

/-- Rendering of a `Value` inside an f-string (`f"… {transaction_sender} …"`). -/
def Value.str : Value → String
  | .vInt n => toString n
  | .vStr s => s
  | .vBytes b => toString b

/-- The `ScenarioAssertionError` message of the transaction-sender
check in `AssertChannelSettledEventTask._run`. -/
def settledSenderMsg (sender initiator : Value) : String :=
  "The ChannelSettled event was emitted from a tx by " ++ sender.str ++
    ", but was expected to be emitted from a tx by " ++ initiator.str

/-- Model of `AssertChannelSettledEventTask._run` after config resolution: the
initiator/partner values from the configuration go through
`_get_node_address` (as in `__init__`), the candidate events are
selected, exactly one must survive, and its transaction's sender
(`txSender`, the collaborator `web3.eth.get_transaction(h)["from"]`)
must equal the resolved initiator. -/
def runAssertChannelSettled (nodeAddr : Int → Value) (txSender : Nat → Value)
    (channel_identifier : Int) (cfgInitiator cfgPartner : Value)
    (initiator_amount partner_amount : Option Int) (chainEvents : List DecodedEvent) :
    Except Err (List DecodedEvent) :=
  let initiator := getNodeAddress nodeAddr cfgInitiator
  let partner := getNodeAddress nodeAddr cfgPartner
  let events := settledCandidates nodeAddr channel_identifier initiator partner
    initiator_amount partner_amount chainEvents
  match events with
  | [e] =>
      let sender := txSender e.transactionHash
      if sender ≠ initiator then
        .error (.assertionMismatch (settledSenderMsg sender initiator))
      else .ok [e]
  | _ => .error (.assertionMismatch "Did not find expected ChannelSettled event!")

/-! ### Monitoring-service claim assertion (`AssertMSClaimTask`) -/

/-- Big-endian byte string of `n` on `width` bytes (high bytes beyond
`width` are dropped, i.e. the value is taken mod `256 ^ width`): the
tightly packed ABI encoding of an unsigned integer. -/
def natToBytesBE : Nat → Nat → List Nat
  | 0, _ => []
  | w + 1, n => natToBytesBE w (n / 256) ++ [n % 256]

/-- Value of a big-endian byte string (left inverse of `natToBytesBE`
on `width`-byte values). -/
def bytesBEToNat (bs : List Nat) : Nat :=
  bs.foldl (fun acc b => acc * 256 + b) 0

/-- The reward identifier of `AssertMSClaimTask._run`:
`Web3.soliditySha3(["uint256", "address"], [channel_identifier,
token_network_address])`, i.e. keccak256 (the collaborator `hash`) of
the 32-byte big-endian channel identifier tightly packed with the
20-byte token network address. -/
def rewardId (hash : List Nat → List Nat) (channel_identifier : Nat)
    (token_network_address : List Nat) : List Nat :=
  hash (natToBytesBE 32 channel_identifier ++ token_network_address)

/-- Model of `match_event` in `AssertMSClaimTask._run`: the event must be a
`MonitoringServiceEvent.REWARD_CLAIMED` (= "RewardClaimed") event and
its decoded `reward_identifier` bytes must equal the computed reward
id.  (For decoded RewardClaimed events the argument is always present
and is a byte string; on any other shape Python would raise, which
cannot happen for events decoded from this signature.) -/
def matchClaimEvent (reward_id : List Nat) (e : DecodedEvent) : Bool :=
  e.event == "RewardClaimed" &&
    (match lookupArg e.args "reward_identifier" with
     | some (.vBytes b) => b == reward_id
     | _ => false)

/-- The events kept by the claim assertion's filter. -/
def msClaimMatches (hash : List Nat → List Nat) (channel_identifier : Nat)
    (token_network_address : List Nat) (chainEvents : List DecodedEvent) :
    List DecodedEvent :=
  chainEvents.filter (matchClaimEvent (rewardId hash channel_identifier token_network_address))

/-- Model of `AssertMSClaimTask._run` after the chain query: filter on the
reward identifier, read `must_claim` from the config (default `True`),
and fail with `ScenarioAssertionError` when `must_claim` but nothing
was found, or when `not must_claim` but something was. -/
def runAssertMSClaim (hash : List Nat → List Nat) (channel_identifier : Nat)
    (token_network_address : List Nat) (must_claim : Option Bool)
    (chainEvents : List DecodedEvent) : Except Err (List DecodedEvent) :=
  let events := msClaimMatches hash channel_identifier token_network_address chainEvents
  let mc := must_claim.getD true
  let found_events := events.length > 0
  if mc && !found_events then
    .error (.assertionMismatch "No RewardClaimed event found for this channel.")
  else if !mc && found_events then
    .error (.assertionMismatch "Unexpected RewardClaimed event found for this channel.")
  else .ok events

/-! ### Event decoding (`decode_event`) -/

/-- One entry of a contract ABI; only its type tag ("event",
"function", …) and name matter here, the topic hash derived by
`event_abi_to_log_topic` and the decoding of a matching log by
`get_event_data` are collaborator parameters. -/
structure AbiEntry where
  entryType : String
  name : String
deriving DecidableEq, Repr

/-- A raw log entry as delivered by `web3.eth.get_logs`. -/
structure RawLog where
  topics : List Nat
  dataPayload : List Nat
  transactionHash : Nat
deriving DecidableEq, Repr

/-- Failures of `decode_event`: `unknownEvent` is the `KeyError` of
the `topic_to_event_abi[event_id]` lookup (no event signature of the
contract matches the log's first topic — the spec's `UnknownEvent`);
`missingTopics` is the `IndexError` of `log_["topics"][0]` on an empty
topic list. -/
inductive DecodeErr where
  | unknownEvent : DecodeErr
  | missingTopics : DecodeErr
deriving DecidableEq, Repr

/-- Model of `decode_event`: take the log's first topic, build the
topic → event-ABI mapping over the "event" entries of the contract ABI
(a Python dict comprehension, so on duplicate topics the later entry
wins — hence `reverse.find?`), and decode with `get_event_data` (the
collaborator `getEventData`) on a hit. -/
def decode_event (topicOf : AbiEntry → Nat)
    (getEventData : AbiEntry → RawLog → DecodedEvent)
    (abi : List AbiEntry) (lg : RawLog) : Except DecodeErr DecodedEvent :=
  match lg.topics with
  | [] => .error .missingTopics
  | event_id :: _ =>
      let events := abi.filter (fun a => a.entryType == "event")
      match events.reverse.find? (fun a => topicOf a == event_id) with
      | some event_abi => .ok (getEventData event_abi lg)
      | none => .error .unknownEvent

/-! ### Aliasing model for the exact-count task

Python dicts are mutable heap objects and
`QueryBlockchainMixin._filter_events` rewrites `self.event_args` in
place, so whether the caller's configuration is affected depends on
whether `AssertBlockchainEventsTask.__init__` aliases or copies
`config["event_args"]`.  The line
`self.event_args = config.get("event_args", {}).copy()` copies.  To
state this, dicts live in an explicit heap of dict cells and the task
holds the id of its own cell. -/

/-- A heap of dict objects; a dict id is an index. -/
abbrev Heap := List Dict

/-- Contents of the dict with id `i` (ids handed out by `Heap.alloc`
are always in range). -/
def Heap.get (h : Heap) (i : Nat) : Dict := h.getD i []

/-- Overwrite the dict with id `i` in place. -/
def Heap.set (h : Heap) (i : Nat) (d : Dict) : Heap := List.set h i d

/-- Allocate a fresh dict object with contents `d`. -/
def Heap.alloc (h : Heap) (d : Dict) : Heap × Nat := (h ++ [d], h.length)

/-- Model of the line of `AssertBlockchainEventsTask.__init__`,
`self.event_args = config.get("event_args", {}).copy()`: a fresh dict
cell is allocated holding a copy of the caller's `event_args` contents
(or of the empty default); the returned id is the task's own cell. -/
def initAssertEventsTask (h : Heap) (cfgEventArgs : Option Nat) : Heap × Nat :=
  Heap.alloc h (match cfgEventArgs with | some i => Heap.get h i | none => [])

/-- Model of `_filter_events` against the heap: identical to `filter_events`
but the constraint dict is read from, and the participant rewrite
written back to, the cell `argsId` (the in-place
`self.event_args[key] = …`). -/
def filter_events_heap (nodeAddr : Int → Value) (h : Heap) (argsId : Nat)
    (event_name : String) (events : List DecodedEvent) : Heap × List DecodedEvent :=
  let event_args := Heap.get h argsId
  let byName := events.filter (fun e => e.event == event_name)
  if event_args.isEmpty then (h, byName)
  else
    let args2 := resolveArgs nodeAddr event_args
    (Heap.set h argsId args2,
      byName.filter (fun e => !e.args.isEmpty && itemsIntersect args2 e.args))

/-- Model of `AssertBlockchainEventsTask` construction followed by `_run`,
against the heap: copy the config's `event_args`, filter, compare the
count.  Returns the final heap together with the run's outcome. -/
def runAssertEventsHeap (nodeAddr : Int → Value) (h : Heap) (cfgEventArgs : Option Nat)
    (event_name : String) (num_events : Nat) (chainEvents : List DecodedEvent) :
    Heap × Except Err (List DecodedEvent) :=
  let (h1, taskArgsId) := initAssertEventsTask h cfgEventArgs
  let (h2, events) := filter_events_heap nodeAddr h1 taskArgsId event_name chainEvents
  if num_events ≠ events.length then
    (h2, .error (.assertionMismatch (assertEventsMsg num_events events.length)))
  else (h2, .ok events)

/-! ### Spec-side definitions

These follow the wording of the specification, to be compared with the
definitions above that were translated from the code. -/

/-- Spec wording (§4.4): the node index denoted by a constraint value,
when the value is "an integer or a numeric string"; `none` for every
other value ("compare the literal value"). -/
def specNodeIndex : Value → Option Int
  | .vInt n => some n
  | .vStr s => if isNumericStr s then some (strToNat s : Int) else none
  | .vBytes _ => none

/-- Spec wording: one constraint entry after resolution — if the
argument name contains the participant substring and the value denotes
a node index, the value becomes that node's address; otherwise the
entry is unchanged. -/
def specRewriteEntry (nodeAddr : Int → Value) (kv : String × Value) : String × Value :=
  if strContains kv.1 "participant" then
    match specNodeIndex kv.2 with
    | some i => (kv.1, nodeAddr i)
    | none => kv
  else kv

/-- Predicate: `t` occurs as a contiguous substring of `s`. -/
def containsStr (s t : String) : Prop :=
  ∃ a b, s.data = a ++ t.data ++ b

/-! ### Helper lemmas -/

theorem itemsIntersect_iff (xs ys : Dict) :
    itemsIntersect xs ys = true ↔ ∃ p ∈ xs, p ∈ ys := by
  simp [itemsIntersect, List.any_eq_true]

theorem itemsIntersect_ne_nil {xs ys : Dict} (h : itemsIntersect xs ys = true) :
    ys.isEmpty = false := by
  obtain ⟨p, _, hp⟩ := (itemsIntersect_iff xs ys).mp h
  rcases ys with _ | ⟨q, ys⟩
  · simp at hp
  · simp

theorem containsStr_append_left (s t k : String) (h : containsStr t k) :
    containsStr (s ++ t) k := by
  obtain ⟨a, b, hab⟩ := h
  exact ⟨s.data ++ a, b, by simp [String.data_append, hab]⟩

theorem containsStr_append_right (s t k : String) (h : containsStr s k) :
    containsStr (s ++ t) k := by
  obtain ⟨a, b, hab⟩ := h
  exact ⟨a, b ++ t.data, by simp [String.data_append, hab]⟩

theorem containsStr_refl (s : String) : containsStr s s := ⟨[], [], by simp⟩

/-! ### Claim theorems -/

/-- Claim C2: the matcher keeps exactly the events whose name equals
the target and whose argument pairs share at least one pair with the
(participant-resolved) constraint pairs — a loose AND, not a superset
check; with an empty constraint dict only the name filter applies.
(The resolution of participant constraint entries before the
comparison is the subject of claim C3; for constraints without such
entries `resolveArgs` is the identity, cf. the witness.) -/
theorem matcher_loose_intersection (nodeAddr : Int → Value) (event_name : String)
    (event_args : Dict) (events : List DecodedEvent) :
    (event_args ≠ [] →
      (filter_events nodeAddr event_name event_args events).1 =
        events.filter (fun e =>
          e.event == event_name && itemsIntersect (resolveArgs nodeAddr event_args) e.args))
    ∧ (event_args = [] →
      (filter_events nodeAddr event_name event_args events).1 =
        events.filter (fun e => e.event == event_name)) := by
  constructor
  · intro hne
    have hempty : event_args.isEmpty = false := by
      rcases event_args with _ | ⟨kv, rest⟩
      · exact absurd rfl hne
      · simp
    simp only [filter_events, hempty, Bool.false_eq_true, if_false, List.filter_filter]
    apply List.filter_congr
    intro e _
    rcases hint : itemsIntersect (resolveArgs nodeAddr event_args) e.args with _ | _
    · simp [hint]
    · simp [hint, itemsIntersect_ne_nil hint]
  · intro he
    subst he
    simp [filter_events]

/-- Witness for C2 at the spec's own example: the event with args
`{a: 1, b: 2}` is kept under constraint `{a: 1, c: 9}` (non-empty
intersection on `a`) and dropped under constraint `{c: 9}`; with an
empty constraint the name filter alone keeps it. -/
theorem matcher_loose_intersection_witness :
    (filter_events (fun i => Value.vStr ("0xNode" ++ toString i)) "E"
        [("a", Value.vInt 1), ("c", Value.vInt 9)]
        [⟨"E", [("a", Value.vInt 1), ("b", Value.vInt 2)], 5⟩]).1 =
      [⟨"E", [("a", Value.vInt 1), ("b", Value.vInt 2)], 5⟩]
    ∧ (filter_events (fun i => Value.vStr ("0xNode" ++ toString i)) "E"
        [("c", Value.vInt 9)]
        [⟨"E", [("a", Value.vInt 1), ("b", Value.vInt 2)], 5⟩]).1 = []
    ∧ (filter_events (fun i => Value.vStr ("0xNode" ++ toString i)) "E" []
        [⟨"E", [("a", Value.vInt 1), ("b", Value.vInt 2)], 5⟩]).1 =
      [⟨"E", [("a", Value.vInt 1), ("b", Value.vInt 2)], 5⟩] := by
  refine ⟨?_, ?_, ?_⟩
  · rw [(matcher_loose_intersection (fun i => Value.vStr ("0xNode" ++ toString i)) "E"
      [("a", Value.vInt 1), ("c", Value.vInt 9)]
      [⟨"E", [("a", Value.vInt 1), ("b", Value.vInt 2)], 5⟩]).1 (by decide)]
    rfl
  · rw [(matcher_loose_intersection (fun i => Value.vStr ("0xNode" ++ toString i)) "E"
      [("c", Value.vInt 9)]
      [⟨"E", [("a", Value.vInt 1), ("b", Value.vInt 2)], 5⟩]).1 (by decide)]
    rfl
  · rw [(matcher_loose_intersection (fun i => Value.vStr ("0xNode" ++ toString i)) "E" []
      [⟨"E", [("a", Value.vInt 1), ("b", Value.vInt 2)], 5⟩]).2 rfl]
    rfl

/-- Claim C3: before comparison, every constraint entry whose name
contains "participant" and whose value is an integer or a numeric
string has the value replaced by the on-chain address of the scenario
node with that index; all other entries are compared literally.  The
left side is the rewrite translated from the code, the right side is
the rule as the spec words it. -/
theorem participant_constraint_resolution (nodeAddr : Int → Value) (args : Dict) :
    resolveArgs nodeAddr args = args.map (specRewriteEntry nodeAddr) := by
  unfold resolveArgs
  apply List.map_congr_left
  intro kv _
  obtain ⟨k, v⟩ := kv
  by_cases hk : strContains k "participant" = true
  · cases v with
    | vInt n => simp [specRewriteEntry, hk, getNodeAddress, specNodeIndex]
    | vStr s =>
        by_cases hs : isNumericStr s = true
        · simp [specRewriteEntry, hk, getNodeAddress, specNodeIndex, hs]
        · simp [specRewriteEntry, hk, getNodeAddress, specNodeIndex, hs]
    | vBytes b => simp [specRewriteEntry, hk, getNodeAddress, specNodeIndex]
  · simp [specRewriteEntry, hk]

theorem assertEventsMsg_contains_expected (a b : Nat) :
    containsStr (assertEventsMsg a b) (toString a) := by
  refine ⟨"Expected number of events (".data,
    (") did not match the number of events found (" ++ toString b ++ ")").data, ?_⟩
  simp [assertEventsMsg, String.data_append]

theorem assertEventsMsg_contains_actual (a b : Nat) :
    containsStr (assertEventsMsg a b) (toString b) := by
  refine ⟨("Expected number of events (" ++ toString a ++
    ") did not match the number of events found (").data, ")".data, ?_⟩
  simp [assertEventsMsg, String.data_append]

/-- Claim C4: the exact-count assertion raises `ScenarioAssertionError`
iff the number of events surviving decode+match differs from the
configured `num_events`; the message contains both the expected and
the actual count; on equal counts the matched events are the success
payload. -/
theorem exact_count_assertion (nodeAddr : Int → Value) (cfgEventArgs : Dict)
    (event_name : String) (num_events : Nat) (chainEvents : List DecodedEvent) :
    (runAssertEvents nodeAddr cfgEventArgs event_name num_events chainEvents =
        .ok (filter_events nodeAddr event_name cfgEventArgs chainEvents).1 ↔
      num_events = (filter_events nodeAddr event_name cfgEventArgs chainEvents).1.length)
    ∧ (num_events ≠ (filter_events nodeAddr event_name cfgEventArgs chainEvents).1.length →
        runAssertEvents nodeAddr cfgEventArgs event_name num_events chainEvents =
          .error (.assertionMismatch (assertEventsMsg num_events
            (filter_events nodeAddr event_name cfgEventArgs chainEvents).1.length))
        ∧ containsStr (assertEventsMsg num_events
            (filter_events nodeAddr event_name cfgEventArgs chainEvents).1.length)
            (toString num_events)
        ∧ containsStr (assertEventsMsg num_events
            (filter_events nodeAddr event_name cfgEventArgs chainEvents).1.length)
            (toString (filter_events nodeAddr event_name cfgEventArgs chainEvents).1.length)) := by
  constructor
  · by_cases hne :
      num_events = (filter_events nodeAddr event_name cfgEventArgs chainEvents).1.length
    · simp [runAssertEvents, hne]
    · simp [runAssertEvents, hne]
  · intro hne
    exact ⟨by simp [runAssertEvents, hne], assertEventsMsg_contains_expected _ _,
      assertEventsMsg_contains_actual _ _⟩

/-- Witness for C4, the spec's end-to-end scenario 1: three decoded
events of which two are named "ChannelClosed"; `num_events = 3` fails
with a message containing "3" and "2", `num_events = 2` succeeds with
the two matched events as payload. -/
theorem exact_count_assertion_witness :
    runAssertEvents (fun i => Value.vStr ("0xNode" ++ toString i)) [] "ChannelClosed" 3
        [⟨"ChannelClosed", [("channel_identifier", Value.vInt 1)], 1⟩,
         ⟨"ChannelOpened", [("channel_identifier", Value.vInt 2)], 2⟩,
         ⟨"ChannelClosed", [("channel_identifier", Value.vInt 3)], 3⟩] =
      .error (.assertionMismatch (assertEventsMsg 3 2))
    ∧ containsStr (assertEventsMsg 3 2) "3"
    ∧ containsStr (assertEventsMsg 3 2) "2"
    ∧ runAssertEvents (fun i => Value.vStr ("0xNode" ++ toString i)) [] "ChannelClosed" 2
        [⟨"ChannelClosed", [("channel_identifier", Value.vInt 1)], 1⟩,
         ⟨"ChannelOpened", [("channel_identifier", Value.vInt 2)], 2⟩,
         ⟨"ChannelClosed", [("channel_identifier", Value.vInt 3)], 3⟩] =
      .ok [⟨"ChannelClosed", [("channel_identifier", Value.vInt 1)], 1⟩,
           ⟨"ChannelClosed", [("channel_identifier", Value.vInt 3)], 3⟩] := by
  have h3 := (exact_count_assertion (fun i => Value.vStr ("0xNode" ++ toString i)) []
    "ChannelClosed" 3
    [⟨"ChannelClosed", [("channel_identifier", Value.vInt 1)], 1⟩,
     ⟨"ChannelOpened", [("channel_identifier", Value.vInt 2)], 2⟩,
     ⟨"ChannelClosed", [("channel_identifier", Value.vInt 3)], 3⟩]).2 (by decide)
  have h2 := (exact_count_assertion (fun i => Value.vStr ("0xNode" ++ toString i)) []
    "ChannelClosed" 2
    [⟨"ChannelClosed", [("channel_identifier", Value.vInt 1)], 1⟩,
     ⟨"ChannelOpened", [("channel_identifier", Value.vInt 2)], 2⟩,
     ⟨"ChannelClosed", [("channel_identifier", Value.vInt 3)], 3⟩]).1.mpr (by decide)
  refine ⟨h3.1, h3.2.1, h3.2.2, ?_⟩
  rw [h2]
  rfl

/-- Claim C5: `must_claim` defaults to true (omitting it behaves like
`some true`) and decides the polarity of the claim assertion: with
`must_claim`, zero matches raises `ScenarioAssertionError` and any
positive number of matches succeeds with the matches as payload;
without it, one or more matches raises and zero matches succeeds. -/
theorem must_claim_polarity (hash : List Nat → List Nat) (channel_identifier : Nat)
    (token_network_address : List Nat) (chainEvents : List DecodedEvent) :
    (runAssertMSClaim hash channel_identifier token_network_address none chainEvents =
      runAssertMSClaim hash channel_identifier token_network_address (some true) chainEvents)
    ∧ (msClaimMatches hash channel_identifier token_network_address chainEvents = [] →
        isAssertionMismatch (runAssertMSClaim hash channel_identifier token_network_address
          (some true) chainEvents) = true
        ∧ runAssertMSClaim hash channel_identifier token_network_address (some false)
            chainEvents = .ok [])
    ∧ (msClaimMatches hash channel_identifier token_network_address chainEvents ≠ [] →
        runAssertMSClaim hash channel_identifier token_network_address (some true) chainEvents =
          .ok (msClaimMatches hash channel_identifier token_network_address chainEvents)
        ∧ isAssertionMismatch (runAssertMSClaim hash channel_identifier token_network_address
            (some false) chainEvents) = true) := by
  refine ⟨rfl, ?_, ?_⟩
  · intro hnil
    constructor
    · simp [runAssertMSClaim, hnil, isAssertionMismatch]
    · simp [runAssertMSClaim, hnil]
  · intro hne
    have hlen : 0 < (msClaimMatches hash channel_identifier token_network_address
        chainEvents).length := List.length_pos.mpr hne
    constructor
    · simp [runAssertMSClaim, hlen, Nat.not_eq_zero_of_lt]
    · simp [runAssertMSClaim, hlen, isAssertionMismatch]

/-- Witness for C5, the spec's end-to-end scenario 2 plus the
more-than-one-match case: with no matching event, `must_claim = true`
fails and `must_claim = false` succeeds; with two matching events,
`must_claim = true` succeeds with both events and `must_claim = false`
fails. -/
theorem must_claim_polarity_witness :
    isAssertionMismatch (runAssertMSClaim (fun l => l) 1 [170, 187] (some true) []) = true
    ∧ runAssertMSClaim (fun l => l) 1 [170, 187] (some false) [] = .ok []
    ∧ runAssertMSClaim (fun l => l) 1 [170, 187] (some true)
        [⟨"RewardClaimed", [("reward_identifier", Value.vBytes (rewardId (fun l => l) 1 [170, 187]))], 3⟩,
         ⟨"RewardClaimed", [("reward_identifier", Value.vBytes (rewardId (fun l => l) 1 [170, 187]))], 4⟩] =
      .ok [⟨"RewardClaimed", [("reward_identifier", Value.vBytes (rewardId (fun l => l) 1 [170, 187]))], 3⟩,
           ⟨"RewardClaimed", [("reward_identifier", Value.vBytes (rewardId (fun l => l) 1 [170, 187]))], 4⟩]
    ∧ isAssertionMismatch (runAssertMSClaim (fun l => l) 1 [170, 187] (some false)
        [⟨"RewardClaimed", [("reward_identifier", Value.vBytes (rewardId (fun l => l) 1 [170, 187]))], 3⟩]) =
      true := by
  have h0 := (must_claim_polarity (fun l => l) 1 [170, 187] []).2.1 rfl
  have h2 := (must_claim_polarity (fun l => l) 1 [170, 187]
    [⟨"RewardClaimed", [("reward_identifier", Value.vBytes (rewardId (fun l => l) 1 [170, 187]))], 3⟩,
     ⟨"RewardClaimed", [("reward_identifier", Value.vBytes (rewardId (fun l => l) 1 [170, 187]))], 4⟩]).2.2
    (by decide)
  have h1 := (must_claim_polarity (fun l => l) 1 [170, 187]
    [⟨"RewardClaimed", [("reward_identifier", Value.vBytes (rewardId (fun l => l) 1 [170, 187]))], 3⟩]).2.2
    (by decide)
  exact ⟨h0.1, h0.2, h2.1, h1.2⟩

theorem natToBytesBE_length (w n : Nat) : (natToBytesBE w n).length = w := by
  induction w generalizing n with
  | zero => simp [natToBytesBE]
  | succ w ih => simp [natToBytesBE, ih]

theorem bytesBEToNat_append_single (xs : List Nat) (b : Nat) :
    bytesBEToNat (xs ++ [b]) = bytesBEToNat xs * 256 + b := by
  simp [bytesBEToNat, List.foldl_append]

theorem bytesBEToNat_natToBytesBE (w n : Nat) :
    bytesBEToNat (natToBytesBE w n) = n % 256 ^ w := by
  induction w generalizing n with
  | zero => simp [natToBytesBE, bytesBEToNat, Nat.mod_one]
  | succ w ih =>
      rw [natToBytesBE, bytesBEToNat_append_single, ih]
      rw [pow_succ, mul_comm (256 ^ w) 256, Nat.mod_mul]
      ring

/-- Claim C6: the reward identifier is the one-way hash of the tightly
packed pair (channel identifier as a 256-bit unsigned integer, token
network address) — deterministic in that pair since the packing is a
pure function — and the claim filter keeps exactly the decoded
"RewardClaimed" events whose `reward_identifier` byte string equals
that identifier. -/
theorem claim_reward_id_filter (hash : List Nat → List Nat) (channel_identifier : Nat)
    (token_network_address : List Nat) (chainEvents : List DecodedEvent) :
    rewardId hash channel_identifier token_network_address =
      hash (natToBytesBE 32 channel_identifier ++ token_network_address)
    ∧ (natToBytesBE 32 channel_identifier).length = 32
    ∧ bytesBEToNat (natToBytesBE 32 channel_identifier) = channel_identifier % 256 ^ 32
    ∧ (∀ cid2 tna2, cid2 = channel_identifier → tna2 = token_network_address →
        rewardId hash cid2 tna2 = rewardId hash channel_identifier token_network_address)
    ∧ msClaimMatches hash channel_identifier token_network_address chainEvents =
        chainEvents.filter (fun e =>
          e.event == "RewardClaimed" &&
            decide (lookupArg e.args "reward_identifier" =
              some (Value.vBytes (rewardId hash channel_identifier token_network_address)))) := by
  refine ⟨rfl, natToBytesBE_length 32 channel_identifier,
    bytesBEToNat_natToBytesBE 32 channel_identifier, ?_, ?_⟩
  · intro cid2 tna2 h1 h2
    rw [h1, h2]
  · apply List.filter_congr
    intro e _
    unfold matchClaimEvent
    rcases hlook : lookupArg e.args "reward_identifier" with _ | v
    · simp [hlook]
    · cases v with
      | vInt n => simp [hlook]
      | vStr s => simp [hlook]
      | vBytes b =>
          by_cases hb : b = rewardId hash channel_identifier token_network_address
          · simp [hlook, hb]
          · simp [hlook, hb]

/-- Witness for C6: two decoded events with the same name, one
carrying the computed reward identifier and one a different byte
string; only the first survives, and the identifier of the pair
`(1, 0xaabb)` is recomputed unchanged. -/
theorem claim_reward_id_filter_witness :
    msClaimMatches (fun l => l) 1 [170, 187]
        [⟨"RewardClaimed", [("reward_identifier", Value.vBytes (rewardId (fun l => l) 1 [170, 187]))], 3⟩,
         ⟨"RewardClaimed", [("reward_identifier", Value.vBytes [9])], 4⟩] =
      [⟨"RewardClaimed", [("reward_identifier", Value.vBytes (rewardId (fun l => l) 1 [170, 187]))], 3⟩]
    ∧ rewardId (fun l => l) 1 [170, 187] = rewardId (fun l => l) 1 [170, 187] := by
  have h := claim_reward_id_filter (fun l => l) 1 [170, 187]
    [⟨"RewardClaimed", [("reward_identifier", Value.vBytes (rewardId (fun l => l) 1 [170, 187]))], 3⟩,
     ⟨"RewardClaimed", [("reward_identifier", Value.vBytes [9])], 4⟩]
  refine ⟨?_, h.2.2.2.1 1 [170, 187] rfl rfl⟩
  rw [h.2.2.2.2]
  rfl

/-- Claim C7: when the settlement assertion is left with exactly one
surviving `ChannelSettled` event, it raises `ScenarioAssertionError`
whenever the event's transaction sender differs from the resolved
initiator address, and succeeds (with that event as payload) exactly
when the sender equals the initiator. -/
theorem settled_sender_check (nodeAddr : Int → Value) (txSender : Nat → Value)
    (channel_identifier : Int) (cfgInitiator cfgPartner : Value)
    (initiator_amount partner_amount : Option Int) (chainEvents : List DecodedEvent)
    (e : DecodedEvent)
    (hone : settledCandidates nodeAddr channel_identifier
      (getNodeAddress nodeAddr cfgInitiator) (getNodeAddress nodeAddr cfgPartner)
      initiator_amount partner_amount chainEvents = [e]) :
    (txSender e.transactionHash ≠ getNodeAddress nodeAddr cfgInitiator →
      runAssertChannelSettled nodeAddr txSender channel_identifier cfgInitiator cfgPartner
          initiator_amount partner_amount chainEvents =
        .error (.assertionMismatch (settledSenderMsg (txSender e.transactionHash)
          (getNodeAddress nodeAddr cfgInitiator))))
    ∧ (runAssertChannelSettled nodeAddr txSender channel_identifier cfgInitiator cfgPartner
          initiator_amount partner_amount chainEvents = .ok [e] ↔
        txSender e.transactionHash = getNodeAddress nodeAddr cfgInitiator) := by
  simp only [runAssertChannelSettled]
  rw [hone]
  by_cases hs : txSender e.transactionHash = getNodeAddress nodeAddr cfgInitiator
  · simp [hs]
  · simp [hs]

/-- Witness for C7, the spec's end-to-end scenario 3: a single
surviving event `(participant1 = 0xA, participant2 = 0xB)` requested
as `(initiator = 0xA, partner = 0xB)`; with transaction sender `0xB`
the assertion fails although every argument matched, with sender
`0xA` it succeeds. -/
theorem settled_sender_check_witness :
    runAssertChannelSettled (fun i => Value.vStr ("0xNode" ++ toString i))
        (fun _ => Value.vStr "0xB") 1 (Value.vStr "0xA") (Value.vStr "0xB") none none
        [⟨"ChannelSettled",
          [("channel_identifier", Value.vInt 1), ("participant1", Value.vStr "0xA"),
           ("participant2", Value.vStr "0xB")], 7⟩] =
      .error (.assertionMismatch (settledSenderMsg (Value.vStr "0xB") (Value.vStr "0xA")))
    ∧ runAssertChannelSettled (fun i => Value.vStr ("0xNode" ++ toString i))
        (fun _ => Value.vStr "0xA") 1 (Value.vStr "0xA") (Value.vStr "0xB") none none
        [⟨"ChannelSettled",
          [("channel_identifier", Value.vInt 1), ("participant1", Value.vStr "0xA"),
           ("participant2", Value.vStr "0xB")], 7⟩] =
      .ok [⟨"ChannelSettled",
          [("channel_identifier", Value.vInt 1), ("participant1", Value.vStr "0xA"),
           ("participant2", Value.vStr "0xB")], 7⟩] := by
  constructor
  · exact (settled_sender_check (fun i => Value.vStr ("0xNode" ++ toString i))
      (fun _ => Value.vStr "0xB") 1 (Value.vStr "0xA") (Value.vStr "0xB") none none
      [⟨"ChannelSettled",
        [("channel_identifier", Value.vInt 1), ("participant1", Value.vStr "0xA"),
         ("participant2", Value.vStr "0xB")], 7⟩]
      ⟨"ChannelSettled",
        [("channel_identifier", Value.vInt 1), ("participant1", Value.vStr "0xA"),
         ("participant2", Value.vStr "0xB")], 7⟩ (by decide)).1 (by decide)
  · exact (settled_sender_check (fun i => Value.vStr ("0xNode" ++ toString i))
      (fun _ => Value.vStr "0xA") 1 (Value.vStr "0xA") (Value.vStr "0xB") none none
      [⟨"ChannelSettled",
        [("channel_identifier", Value.vInt 1), ("participant1", Value.vStr "0xA"),
         ("participant2", Value.vStr "0xB")], 7⟩]
      ⟨"ChannelSettled",
        [("channel_identifier", Value.vInt 1), ("participant1", Value.vStr "0xA"),
         ("participant2", Value.vStr "0xB")], 7⟩ (by decide)).2.mpr (by decide)

/-- Claim C1 (code behaviour at the claimed scenario): an event
recording `(participant1 = 0xB, participant2 = 0xA)` queried with
`(initiator = 0xA, partner = 0xB)` — the transaction sender is `0xA`,
so the sender check would pass.  The claim (and the spec) say the
swapped retry finds this event and the assertion succeeds; the code,
however, passes the empty result of the first
`_filter_for_channel_settled` call into the retry instead of the
events of the channel, so the retry filters an empty sequence and the
assertion fails.  This theorem evaluates the code at that input. -/
theorem settled_swapped_retry_finds_nothing :
    runAssertChannelSettled (fun i => Value.vStr ("0xNode" ++ toString i))
        (fun _ => Value.vStr "0xA") 1 (Value.vStr "0xA") (Value.vStr "0xB") none none
        [⟨"ChannelSettled",
          [("channel_identifier", Value.vInt 1), ("participant1", Value.vStr "0xB"),
           ("participant2", Value.vStr "0xA")], 7⟩] =
      .error (.assertionMismatch "Did not find expected ChannelSettled event!") := by
  rfl

theorem joinComma_contains {k : String} {l : List String} (h : k ∈ l) :
    containsStr (joinComma l) k := by
  induction l with
  | nil => cases h
  | cons s rest ih =>
      rcases List.mem_cons.mp h with rfl | hmem
      · rcases rest with _ | ⟨t, rest⟩
        · exact containsStr_refl k
        · exact containsStr_append_right _ _ _ (containsStr_append_right _ _ _
            (containsStr_refl k))
      · rcases rest with _ | ⟨t, rest⟩
        · cases hmem
        · exact containsStr_append_left _ _ _ (ih hmem)

/-- Claim C8: missing required configuration keys raise
`ScenarioError` (naming every required key in the message) at task
construction, an unknown contract name raises `ScenarioError` with the
"Unknown contract name" message at address resolution, and both are of
the error kind distinct from `ScenarioAssertionError` — never an
assertion outcome. -/
theorem config_errors (configKeys required : List String) (tokenNetworkAddress : Value)
    (deployedContracts : List (String × Value)) (contract_name : String) :
    (verify_config configKeys required = .ok () ↔ ∀ k ∈ required, k ∈ configKeys)
    ∧ ((∃ k ∈ required, k ∉ configKeys) →
        ∃ msg, verify_config configKeys required = .error (.scenarioError msg) ∧
          ∀ k ∈ required, containsStr msg k)
    ∧ (contract_name ≠ "TokenNetwork" →
        deployedContracts.find? (fun kv => kv.1 == contract_name) = none →
        resolveContractAddress tokenNetworkAddress deployedContracts contract_name =
          .error (.scenarioError ("Unknown contract name: " ++ contract_name)))
    ∧ (∀ m1 m2, Err.scenarioError m1 ≠ Err.assertionMismatch m2) := by
  have hco : (required.any (fun k => !(configKeys.contains k)) = true) ↔
      ∃ k ∈ required, k ∉ configKeys := by
    simp
  refine ⟨?_, ?_, ?_, by simp⟩
  · by_cases hmiss : ∃ k ∈ required, k ∉ configKeys
    · have hany : required.any (fun k => !(configKeys.contains k)) = true := hco.mpr hmiss
      simp only [verify_config, hany, if_true]
      constructor
      · intro habs; cases habs
      · intro hall
        obtain ⟨k, hk, hnot⟩ := hmiss
        exact absurd (hall k hk) hnot
    · have hany : ¬(required.any (fun k => !(configKeys.contains k)) = true) :=
        fun h => hmiss (hco.mp h)
      simp only [Bool.not_eq_true] at hany
      simp only [verify_config, hany, Bool.false_eq_true, if_false, true_iff]
      push_neg at hmiss
      exact hmiss
  · intro hmiss
    have hany : required.any (fun k => !(configKeys.contains k)) = true := hco.mpr hmiss
    refine ⟨"Not all required keys provided. Required: " ++ joinComma required,
      by simp only [verify_config, hany, if_true], ?_⟩
    intro k2 hk2
    exact containsStr_append_left _ _ _ (joinComma_contains hk2)
  · intro hname hfind
    simp [resolveContractAddress, hname, hfind]

/-- Witness for C8: constructing with config keys
`{contract_name, event_name}` while `num_events` is also required
fails with a `ScenarioError` naming all three keys, and looking up the
contract "MonitoringService" in an empty deployment descriptor fails
with the unknown-contract `ScenarioError`. -/
theorem config_errors_witness :
    (∃ msg, verify_config ["contract_name", "event_name"]
        ["contract_name", "event_name", "num_events"] = .error (.scenarioError msg) ∧
      ∀ k ∈ ["contract_name", "event_name", "num_events"], containsStr msg k)
    ∧ resolveContractAddress (Value.vStr "0xTN") [] "MonitoringService" =
      .error (.scenarioError ("Unknown contract name: " ++ "MonitoringService")) := by
  constructor
  · exact (config_errors ["contract_name", "event_name"]
      ["contract_name", "event_name", "num_events"] (Value.vStr "0xTN") []
      "MonitoringService").2.1 ⟨"num_events", by decide, by decide⟩
  · exact (config_errors ["contract_name", "event_name"]
      ["contract_name", "event_name", "num_events"] (Value.vStr "0xTN") []
      "MonitoringService").2.2.1 (by decide) rfl

/-- Claim C9: decoding a raw log resolves the event signature by the
log's first topic against the "event" entries of the contract ABI;
when no entry's topic matches, it fails with the unknown-event error
(the lookup `KeyError`), never skipping the log silently; when an
entry matches, decoding proceeds and the structured event produced by
`get_event_data` from a matching entry is returned. -/
theorem decode_event_unknown (topicOf : AbiEntry → Nat)
    (getEventData : AbiEntry → RawLog → DecodedEvent) (abi : List AbiEntry) (lg : RawLog)
    (event_id : Nat) (rest : List Nat) (htopics : lg.topics = event_id :: rest) :
    (decode_event topicOf getEventData abi lg = .error .unknownEvent ↔
      ∀ a ∈ abi, a.entryType = "event" → topicOf a ≠ event_id)
    ∧ (∀ d, decode_event topicOf getEventData abi lg = .ok d →
        ∃ a ∈ abi, a.entryType = "event" ∧ topicOf a = event_id ∧ d = getEventData a lg)
    ∧ ((∃ a ∈ abi, a.entryType = "event" ∧ topicOf a = event_id) →
        ∃ a, decode_event topicOf getEventData abi lg = .ok (getEventData a lg)) := by
  simp only [decode_event, htopics]
  rcases hfind : (abi.filter (fun a => a.entryType == "event")).reverse.find?
      (fun a => topicOf a == event_id) with _ | a
  all_goals rw [hfind]
  · rw [List.find?_eq_none] at hfind
    refine ⟨?_, ?_, ?_⟩
    · simp only [true_iff]
      intro a ha htype
      have := hfind a (by
        rw [List.mem_reverse, List.mem_filter]
        exact ⟨ha, by simp [htype]⟩)
      simpa using this
    · intro d hd; cases hd
    · intro ⟨a, ha, htype, htopic⟩
      exact absurd (by simpa using hfind a (by
        rw [List.mem_reverse, List.mem_filter]
        exact ⟨ha, by simp [htype]⟩)) (by simp [htopic])
  · have hmem : a ∈ abi.filter (fun a => a.entryType == "event") :=
      List.mem_reverse.mp (List.mem_of_find?_eq_some hfind)
    have htype : a.entryType = "event" := by
      have := (List.mem_filter.mp hmem).2
      simpa using this
    have htopic : topicOf a = event_id := by
      have := List.find?_some hfind
      simpa using this
    refine ⟨?_, ?_, ?_⟩
    · constructor
      · intro habs; cases habs
      · intro hall
        exact absurd htopic (hall a (List.mem_filter.mp hmem).1 htype)
    · intro d hd
      exact ⟨a, (List.mem_filter.mp hmem).1, htype, htopic, by
        injection hd with h; exact h.symm⟩
    · intro _
      exact ⟨a, rfl⟩

/-- Witness for C9: an ABI with one event entry of topic 42 and one
function entry; a log whose first topic is 43 fails with the
unknown-event error, a log with first topic 42 decodes to the
structured event. -/
theorem decode_event_unknown_witness :
    decode_event (fun a => if a.name = "E" then 42 else 0)
        (fun a lg => ⟨a.name, [], lg.transactionHash⟩)
        [⟨"event", "E"⟩, ⟨"function", "f"⟩] ⟨[43], [], 9⟩ = .error .unknownEvent
    ∧ decode_event (fun a => if a.name = "E" then 42 else 0)
        (fun a lg => ⟨a.name, [], lg.transactionHash⟩)
        [⟨"event", "E"⟩, ⟨"function", "f"⟩] ⟨[42], [], 9⟩ =
      .ok ⟨"E", [], 9⟩ := by
  constructor
  · exact (decode_event_unknown (fun a => if a.name = "E" then 42 else 0)
      (fun a lg => ⟨a.name, [], lg.transactionHash⟩)
      [⟨"event", "E"⟩, ⟨"function", "f"⟩] ⟨[43], [], 9⟩ 43 [] rfl).1.mpr (by decide)
  · rfl

theorem heap_get_set_other {h1 : Heap} {i j : Nat} (hne : i ≠ j) (d : Dict) :
    Heap.get (Heap.set h1 j d) i = Heap.get h1 i := by
  simp only [Heap.get, Heap.set]
  rw [List.getD_eq_getElem?_getD, List.getElem?_set_ne (by omega),
    ← List.getD_eq_getElem?_getD]

theorem heap_get_append_self {h : Heap} {i : Nat} (hi : i < h.length) (d : Dict) :
    Heap.get (h ++ [d]) i = Heap.get h i := by
  exact List.getD_append _ _ _ _ hi

/-- Claim C10: running the exact-count assertion never mutates the
caller's configuration dict.  `__init__` copies
`config.get("event_args", {})` into a fresh dict cell, so although
`_filter_events` rewrites participant entries of the task's own
`event_args` cell in place, the cell `i` supplied by the caller's
config holds its original contents after `_run`. -/
theorem caller_event_args_unchanged (nodeAddr : Int → Value) (h : Heap) (i : Nat)
    (event_name : String) (num_events : Nat) (chainEvents : List DecodedEvent)
    (hi : i < h.length) :
    Heap.get (runAssertEventsHeap nodeAddr h (some i) event_name num_events chainEvents).1 i =
      Heap.get h i := by
  have hne : i ≠ h.length := by omega
  by_cases hempty : (Heap.get (h ++ [Heap.get h i]) h.length).isEmpty = true
  · simp only [runAssertEventsHeap, initAssertEventsTask, Heap.alloc, filter_events_heap,
      hempty, if_true]
    split <;> exact heap_get_append_self hi _
  · rw [Bool.not_eq_true] at hempty
    simp only [runAssertEventsHeap, initAssertEventsTask, Heap.alloc, filter_events_heap,
      hempty, Bool.false_eq_true, if_false]
    split <;> rw [heap_get_set_other hne _] <;> exact heap_get_append_self hi _

/-- Witness for C10: a heap with one config dict
`{"participant": 0}`; after init+run the caller's cell still holds
`("participant", vInt 0)` although the task's copied cell was
rewritten to the node-0 address by the participant substitution. -/
theorem caller_event_args_unchanged_witness :
    Heap.get (runAssertEventsHeap (fun i => Value.vStr ("0xNode" ++ toString i))
        [[("participant", Value.vInt 0)]] (some 0) "E" 0 []).1 0 =
      [("participant", Value.vInt 0)]
    ∧ Heap.get (runAssertEventsHeap (fun i => Value.vStr ("0xNode" ++ toString i))
        [[("participant", Value.vInt 0)]] (some 0) "E" 0 []).1 1 =
      [("participant", Value.vStr "0xNode0")] := by
  constructor
  · rw [caller_event_args_unchanged (fun i => Value.vStr ("0xNode" ++ toString i))
      [[("participant", Value.vInt 0)]] 0 "E" 0 [] (by decide)]
    rfl
  · rfl

end ScenarioPlayer
